import Mathlib

/-!
Shallow embedding of the rule-sync policy and rule applier of the
`cursor-rules` VS Code extension (`src/panels/RulesViewProvider.ts`).

The stateful TypeScript methods are modelled as pure functions over an
explicit environment that fixes the outcome of every external interaction
(reachability probe, rule-list fetch, file write, persisted configuration,
clock).  Machine integers are `Int` (JS numbers are exact on these ranges);
fallible operations return `Except`.
-/

namespace CursorRules

/-- Author metadata of a rule (`RuleAuthor` interface). -/
structure RuleAuthor where
  name : String
  url : Option String
  avatar : Option String
deriving DecidableEq

/-- A cursor rule (`Rule` interface). -/
structure Rule where
  title : String
  slug : String
  tags : List String
  libs : List String
  content : String
  author : RuleAuthor
deriving DecidableEq

/-- Outcome of the HEAD reachability probe (lines 132-141): the request can
succeed with an ok status, succeed with a non-success status, or throw. -/
inductive ProbeResult where
  | ok
  | notOk
  | networkError
deriving DecidableEq

/-- Outcome of the GET fetch of the rule list in `_syncRules`
(lines 205-215): network error, non-success status (`!response.ok`),
JSON parse failure of the body, or a parsed rule list. -/
inductive FetchResult where
  | networkError
  | badStatus
  | parseError
  | success (rules : List Rule)
deriving DecidableEq

/-- Whether the fetch attempt failed (any outcome other than a parsed
rule list). -/
def FetchResult.failed : FetchResult → Bool
  | .success _ => false
  | _ => true

/-- The persisted `cursorRules.cachedRules` configuration entry: absent (or
an empty, falsy string), present but not valid JSON (so `JSON.parse` at
line 157 throws), or present and parsing to a rule list. -/
inductive CacheState where
  | absent
  | malformed
  | valid (rules : List Rule)
deriving DecidableEq

/-- The two persisted configuration keys (`cursorRules.lastSync` and
`cursorRules.cachedRules`).  `_getLastSync` yields a number or null, so
`lastSync` is an optional integer (epoch ms). -/
structure Config where
  lastSync : Option Int
  cache : CacheState
deriving DecidableEq

/-- Environment of one `_loadRules` call: the parsed local bundled rules
(`_loadLocalRules` returns `[]` on a missing or corrupt file and never
throws), the probe and fetch outcomes, whether the `fs.writeFileSync` of the
fetched rules succeeds, the persisted configuration, and the clock. -/
structure LoadEnv where
  localRules : List Rule
  probe : ProbeResult
  fetch : FetchResult
  writeOk : Bool
  config : Config
  now : Int
deriving DecidableEq

/-- Line 150: `const needsSync = !lastSync || Date.now() - lastSync > 24 *
60 * 60 * 1000`.  In JavaScript `!lastSync` is true when `lastSync` is null
or the number 0 (falsiness), so a stored timestamp of 0 also forces a sync. -/
def computeNeedsSync (lastSync : Option Int) (now : Int) : Bool :=
  match lastSync with
  | none => true
  | some t => t == 0 || decide (now - t > 24 * 60 * 60 * 1000)

/-- Line 137 / 140: `isOffline = !response.ok`, and any thrown error also
sets `isOffline = true`. -/
def probeOffline : ProbeResult → Bool
  | .ok => false
  | .notOk => true
  | .networkError => true

/-- The distinct failure exits of `_syncRules` (lines 203-245): the three
fetch failures, and the `throw new Error('Failed to save rules locally')`
raised when writing the fetched rules to the bundled file fails (line 225). -/
inductive SyncError where
  | fetchNetworkError
  | fetchBadStatus
  | fetchParseError
  | saveLocalFailed
deriving DecidableEq

/-- Result of a successful `_syncRules`: the fetched rules, the updated
configuration (cache := fetched rules, lastSync := now), and the new
contents of the bundled rules file. -/
structure SyncSuccess where
  rules : List Rule
  config : Config
  localFile : List Rule
deriving DecidableEq

/-- `_syncRules` (lines 203-245).  On any fetch failure it throws before
touching any persisted state.  On fetch success it first writes the rules
to the bundled file (line 221; a failure there throws, again before either
configuration update), then updates the cache key (line 229) and the
last-sync key (line 230). -/
def syncRules (env : LoadEnv) : Except SyncError SyncSuccess :=
  match env.fetch with
  | .networkError => .error .fetchNetworkError
  | .badStatus => .error .fetchBadStatus
  | .parseError => .error .fetchParseError
  | .success rules =>
    if env.writeOk then
      .ok ⟨rules, ⟨some env.now, .valid rules⟩, rules⟩
    else
      .error .saveLocalFailed

/-- Result of `_loadRules`: the returned triple, plus the post-state of the
persisted configuration and bundled file, and whether a GET of the rule
list was issued (the HEAD probe is not counted as a fetch of the list). -/
structure LoadResult where
  rules : List Rule
  needsSync : Bool
  isOffline : Bool
  config : Config
  localFile : List Rule
  didFetch : Bool
deriving DecidableEq

/-- `_loadRules` (lines 115-182).

* Lines 124-128: empty local rules return `([], true, true)`.
* Lines 130-146: a failed probe returns the local rules with
  `(true, true)`.
* Lines 148-161: online and no sync needed: a present cache is parsed and
  returned with `(false, false)`; a malformed cache makes `JSON.parse`
  throw, which the outer catch (lines 177-181) turns into the local rules
  with `(true, true)`.
* Lines 163-172: sync needed: a successful `_syncRules` returns the fetched
  rules with `(false, false)`; a failed one is caught and returns the local
  rules with `(true, true)`.
* Line 175: online, no sync needed, no cache: local rules, `(false, false)`. -/
def loadRules (env : LoadEnv) : LoadResult :=
  if env.localRules.length = 0 then
    ⟨[], true, true, env.config, env.localRules, false⟩
  else if probeOffline env.probe then
    ⟨env.localRules, true, true, env.config, env.localRules, false⟩
  else if computeNeedsSync env.config.lastSync env.now then
    match syncRules env with
    | .ok s => ⟨s.rules, false, false, s.config, s.localFile, true⟩
    | .error _ => ⟨env.localRules, true, true, env.config, env.localRules, true⟩
  else
    match env.config.cache with
    | .valid rs => ⟨rs, false, false, env.config, env.localRules, false⟩
    | .malformed => ⟨env.localRules, true, true, env.config, env.localRules, false⟩
    | .absent => ⟨env.localRules, false, false, env.config, env.localRules, false⟩

/-- Outcome of the `showWarningMessage` overwrite prompt in `_setRule`
(lines 269-273): the user picks Yes, picks No, or dismisses the dialog
(which resolves to undefined in VS Code); the code only tests
`choice !== 'Yes'`. -/
inductive PromptChoice where
  | yes
  | no
  | dismissed
deriving DecidableEq

/-- The user-facing notification emitted by one `_setRule` call. -/
inductive SetRuleNotice where
  | noWorkspaceError
  | applied
  | writeError
  | silent
deriving DecidableEq

/-- Environment of one `_setRule` call: whether a workspace folder is open,
the current contents of `.cursorrules` at the workspace root (if the file
exists), the user's answer to the overwrite prompt, and whether
`fs.writeFileSync` succeeds. -/
structure SetRuleEnv where
  hasWorkspace : Bool
  existingFile : Option String
  choice : PromptChoice
  writeOk : Bool
deriving DecidableEq

/-- Result of `_setRule`: whether the overwrite prompt was shown, the
content passed to `fs.writeFileSync` if it was called, the resulting
contents of `.cursorrules`, and the notification shown. -/
structure SetRuleResult where
  prompted : Bool
  writeAttempt : Option String
  file : Option String
  notice : SetRuleNotice
deriving DecidableEq

/-- The write step of `_setRule` (lines 280-286): `fs.writeFileSync` is
called with exactly `rule.content`; its own try/catch reports a failure as
an error notification and leaves the prior file contents in place. -/
def setRuleWrite (rule : Rule) (env : SetRuleEnv) (prompted : Bool) : SetRuleResult :=
  if env.writeOk then
    ⟨prompted, some rule.content, some rule.content, .applied⟩
  else
    ⟨prompted, some rule.content, env.existingFile, .writeError⟩

/-- `_setRule` (lines 256-287): without a workspace folder it reports an
error and writes nothing; if `.cursorrules` exists it prompts and any
answer other than Yes is a silent no-op; otherwise it writes without
prompting. -/
def setRule (rule : Rule) (env : SetRuleEnv) : SetRuleResult :=
  if env.hasWorkspace = false then
    ⟨false, none, env.existingFile, .noWorkspaceError⟩
  else
    match env.existingFile with
    | some c =>
      if env.choice = PromptChoice.yes then
        setRuleWrite rule env true
      else
        ⟨true, none, some c, .silent⟩
    | none => setRuleWrite rule env false

/-- Messages the webview can post to the extension host (lines 67-83). -/
inductive WebviewMsg where
  | getRules
  | setRule (rule : Rule)
  | syncRules

/-- What a message handler produced when it completed without throwing. -/
inductive HandlerOutcome where
  | sentRules (r : LoadResult)
  | ruleHandled (r : SetRuleResult)
  | synced (rules : List Rule)
deriving DecidableEq

/-- The `onDidReceiveMessage` dispatcher (lines 67-83).  The handler body
has no try/catch of its own: `getRules` runs `_sendRules`/`_loadRules`
(total, its outer catch returns a fallback), `setRule` runs `_setRule`
(total, its write failure is caught internally), but `syncRules` calls
`_syncRules` directly, whose errors are re-thrown (line 243) and therefore
propagate out of the dispatcher. -/
def onDidReceiveMessage (msg : WebviewMsg) (lenv : LoadEnv) (senv : SetRuleEnv) :
    Except SyncError HandlerOutcome :=
  match msg with
  | .getRules => .ok (.sentRules (loadRules lenv))
  | .setRule r => .ok (.ruleHandled (setRule r senv))
  | .syncRules => (syncRules lenv).map (fun s => .synced s.rules)

/-- True when the handler completed without an error escaping it. -/
def handled : Except SyncError HandlerOutcome → Bool
  | .ok _ => true
  | .error _ => false

/-- The user-facing notifications the code can show: the error messages at
lines 126 (`No local rules found`), 179 (`Failed to load rules`), 261
(`No workspace folder available`) and 285 (`Failed to apply rule`), and
the informational messages at lines 239 (`Rules synced successfully!`)
and 282 (`Successfully applied rule`). -/
inductive Notice where
  | errorNoLocalRules
  | errorLoadFailed
  | infoSynced
  | errorNoWorkspace
  | infoRuleApplied
  | errorWriteFailed
deriving DecidableEq

/-- Notifications emitted by `_syncRules`: the success toast at line 239;
a failing sync only writes to the console before re-throwing (lines
241-244), emitting no notification. -/
def syncNotices (env : LoadEnv) : List Notice :=
  match syncRules env with
  | .ok _ => [.infoSynced]
  | .error _ => []

/-- Notifications emitted during `_loadRules`, one per return site: the
empty-local-rules error message (line 126); nothing in the offline branch;
in the sync branch whatever `_syncRules` shows (a failing sync is caught
at lines 168-171 and recovered silently by falling back to local rules);
and the outer-catch error message (line 179) when the cached JSON is
malformed and `JSON.parse` throws. -/
def loadNotices (env : LoadEnv) : List Notice :=
  if env.localRules.length = 0 then [.errorNoLocalRules]
  else if probeOffline env.probe then []
  else if computeNeedsSync env.config.lastSync env.now then
    syncNotices env
  else
    match env.config.cache with
    | .valid _ => []
    | .malformed => [.errorLoadFailed]
    | .absent => []

/-- Notifications emitted during `_setRule` (lines 261, 282, 285), one per
outcome. -/
def setRuleNotices (rule : Rule) (env : SetRuleEnv) : List Notice :=
  match (setRule rule env).notice with
  | .noWorkspaceError => [.errorNoWorkspace]
  | .applied => [.infoRuleApplied]
  | .writeError => [.errorWriteFailed]
  | .silent => []

/-- Notifications of one dispatched webview message. -/
def messageNotices (msg : WebviewMsg) (lenv : LoadEnv) (senv : SetRuleEnv) :
    List Notice :=
  match msg with
  | .getRules => loadNotices lenv
  | .setRule r => setRuleNotices r senv
  | .syncRules => syncNotices lenv

/-- The `cursor-rules.openViewer` command (`extension.ts` lines 8-17 and
`show`, lines 44-93): it creates or reveals the panel and triggers the
initial `_sendRules`, i.e. a rules load, so the command completes with
that load's result and notifications; no step of it throws. -/
def openViewer (lenv : LoadEnv) : Except SyncError LoadResult × List Notice :=
  (.ok (loadRules lenv), loadNotices lenv)

/-- Elimination lemma: a successful `_syncRules` run means the fetch parsed
to exactly the returned rules, the local file write succeeded, and both
configuration keys were updated to the fetched rules and the current time. -/
theorem syncRules_ok_elim {env : LoadEnv} {s : SyncSuccess}
    (hs : syncRules env = Except.ok s) :
    env.fetch = FetchResult.success s.rules ∧ env.writeOk = true ∧
      s.config = ⟨some env.now, CacheState.valid s.rules⟩ ∧ s.localFile = s.rules := by
  unfold syncRules at hs
  split at hs
  · exact absurd hs (by simp)
  · exact absurd hs (by simp)
  · exact absurd hs (by simp)
  · next rules heq =>
    split at hs
    · next hw =>
      obtain rfl : SyncSuccess.mk rules ⟨some env.now, .valid rules⟩ rules = s :=
        Except.ok.inj hs
      exact ⟨heq, hw, rfl, rfl⟩
    · exact absurd hs (by simp)

/-- Sample author for concrete environments. -/
def authorA : RuleAuthor := ⟨"alice", some "https://example.com/alice", none⟩

/-- Sample rule with slug `a`. -/
def ruleA : Rule := ⟨"Rule A", "a", ["ts"], [], "content-a", authorA⟩

/-- Sample rule with slug `b`. -/
def ruleB : Rule := ⟨"Rule B", "b", [], [], "content-b", authorA⟩

/-- Concrete environment: offline probe with a populated cache. -/
def envC2 : LoadEnv :=
  ⟨[ruleA], .networkError, .success [ruleB], true, ⟨some 50, .valid [ruleB]⟩, 100⟩

/-- C2: whenever the reachability probe fails (network error or non-success
response), `_loadRules` returns the local bundled rule set with
`needsSync = true` and `isOffline = true`, regardless of the persisted
cache contents. -/
theorem offline_returns_local (env : LoadEnv) (h : env.probe ≠ ProbeResult.ok) :
    (loadRules env).rules = env.localRules ∧ (loadRules env).needsSync = true ∧
      (loadRules env).isOffline = true := by
  have hoff : probeOffline env.probe = true := by
    cases hp : env.probe
    · exact absurd hp h
    · rfl
    · rfl
  unfold loadRules
  split
  · next h0 =>
    have h1 : env.localRules = [] := List.length_eq_zero.mp h0
    exact ⟨h1.symm, rfl, rfl⟩
  · simp [hoff]

/-- Witness for C2 at a concrete offline environment with a non-trivial
cache. -/
theorem offline_returns_local_witness :
    (loadRules envC2).rules = [ruleA] ∧ (loadRules envC2).needsSync = true ∧
      (loadRules envC2).isOffline = true :=
  offline_returns_local envC2 (by decide)

/-- C6: the two persisted configuration keys are updated only by a
successful fetch and never partially: every `_loadRules` outcome either
leaves the configuration exactly as it was, or sets both keys together
(cache to the fetched rules, last-sync to now) after a successful fetch. -/
theorem config_keys_atomic (env : LoadEnv) :
    (loadRules env).config = env.config ∨
      ∃ rs, env.fetch = FetchResult.success rs ∧ env.writeOk = true ∧
        (loadRules env).config = ⟨some env.now, CacheState.valid rs⟩ := by
  unfold loadRules
  split
  · exact Or.inl rfl
  split
  · exact Or.inl rfl
  split
  · split
    · next s hs =>
      obtain ⟨hfetch, hw, hcfg, _⟩ := syncRules_ok_elim hs
      exact Or.inr ⟨s.rules, hfetch, hw, hcfg⟩
    · exact Or.inl rfl
  · split
    · exact Or.inl rfl
    · exact Or.inl rfl
    · exact Or.inl rfl

/-- C10: every `_loadRules` outcome returns `needsSync` equal to
`isOffline`; no result has `needsSync = true` with `isOffline = false`. -/
theorem needsSync_eq_isOffline (env : LoadEnv) :
    (loadRules env).needsSync = (loadRules env).isOffline := by
  unfold loadRules
  split
  · rfl
  split
  · rfl
  split
  · split
    · rfl
    · rfl
  · split
    · rfl
    · rfl
    · rfl

/-- C3 counterexample: at `lastSync = 0` (a present timestamp) and
`now = 1000` the code computes `needsSync = true`, although the timestamp
is neither absent nor more than 86,400,000 ms old: `!lastSync` in
JavaScript is also true for the number 0. -/
theorem needsSync_zero_cex :
    computeNeedsSync (some 0) 1000 = true ∧ (some (0 : Int) ≠ none) ∧
      ¬((1000 : Int) - 0 > 86400000) := by
  refine ⟨rfl, by simp, by decide⟩

/-- C3 amended: `needsSync` is true iff `lastSyncTimestamp` is absent,
equal to 0, or more than 86,400,000 ms before `now`; for a nonzero
timestamp it is false at exactly 24 hours. -/
theorem needsSync_iff (ls : Option Int) (now : Int) :
    (computeNeedsSync ls now = true ↔
      ls = none ∨ ls = some 0 ∨ ∃ t, ls = some t ∧ now - t > 86400000)
    ∧ ∀ t : Int, t ≠ 0 → computeNeedsSync (some t) (t + 86400000) = false := by
  constructor
  · cases ls with
    | none => simp [computeNeedsSync]
    | some t =>
      simp only [computeNeedsSync, Bool.or_eq_true, beq_iff_eq, decide_eq_true_eq,
        Option.some.injEq, reduceCtorEq, false_or]
      constructor
      · rintro (h | h)
        · exact Or.inl h
        · exact Or.inr ⟨t, rfl, by omega⟩
      · rintro (h | ⟨u, hu, h⟩)
        · exact Or.inl h
        · subst hu
          exact Or.inr (by omega)
  · intro t ht
    have h1 : (t == (0 : Int)) = false := by simp [ht]
    have h2 : ¬(t + 86400000 - t > 24 * 60 * 60 * 1000) := by omega
    simp [computeNeedsSync, h1, h2]

/-- Witness for the amended C3: a nonzero timestamp exactly 24 hours old
does not need a sync. -/
theorem needsSync_iff_witness :
    computeNeedsSync (some 5) (5 + 86400000) = false ∧
      computeNeedsSync none 0 = true := by
  refine ⟨(needsSync_iff (some 5) 0).2 5 (by decide), ?_⟩
  exact ((needsSync_iff none 0).1).mpr (Or.inl rfl)

/-- Concrete environment for the C1 counterexample: probe ok, a stored
`lastSync` of 0 well within 24 hours of `now = 1000`, and a non-empty
cache. -/
def envC1 : LoadEnv :=
  ⟨[ruleA], .ok, .success [ruleA, ruleB], true, ⟨some 0, .valid [ruleA]⟩, 1000⟩

/-- C1 counterexample: with `lastSync = 0` (within 24 hours of
`now = 1000`), a succeeding probe and a non-empty cache, `_loadRules`
nevertheless issues a GET of the rule list and does not return the cached
set: the JavaScript falsiness of 0 makes `!lastSync` true. -/
theorem cached_zero_timestamp_cex :
    envC1.config.lastSync = some 0 ∧ envC1.now - 0 ≤ 24 * 60 * 60 * 1000 ∧
      envC1.config.cache = CacheState.valid [ruleA] ∧
      probeOffline envC1.probe = false ∧
      (loadRules envC1).didFetch = true ∧ (loadRules envC1).rules ≠ [ruleA] := by
  refine ⟨rfl, by decide, rfl, rfl, rfl, by decide⟩

/-- C1 amended: for every nonzero `lastSyncTimestamp` within 24 hours of
`now`, when the local bundled rules are non-empty (so the probe runs), the
probe succeeds, and a non-empty cached rule set exists, `_loadRules`
issues no GET of the rule list and returns exactly the cached set with
`needsSync = false` and `isOffline = false`, leaving all state unchanged. -/
theorem cached_within_day_no_fetch (env : LoadEnv) (t : Int) (rs : List Rule)
    (hlocal : env.localRules ≠ [])
    (hprobe : env.probe = ProbeResult.ok)
    (hls : env.config.lastSync = some t)
    (ht : t ≠ 0)
    (hrecent : env.now - t ≤ 24 * 60 * 60 * 1000)
    (hcache : env.config.cache = CacheState.valid rs)
    (_hne : rs ≠ []) :
    loadRules env = ⟨rs, false, false, env.config, env.localRules, false⟩ := by
  have hlen : ¬(env.localRules.length = 0) := by
    simpa [List.length_eq_zero] using hlocal
  have hns : computeNeedsSync env.config.lastSync env.now = false := by
    rw [hls]
    have h1 : (t == (0 : Int)) = false := by simp [ht]
    simp [computeNeedsSync, h1]
    omega
  simp [loadRules, hlen, hprobe, probeOffline, hns, hcache]

/-- Concrete environment for the C1 witness: nonzero recent timestamp,
probe ok, cache holding one rule. -/
def envC1w : LoadEnv :=
  ⟨[ruleA], .ok, .success [ruleA, ruleB], true, ⟨some 500, .valid [ruleB]⟩, 1000⟩

/-- Witness for the amended C1 at a concrete environment. -/
theorem cached_within_day_no_fetch_witness :
    loadRules envC1w =
      ⟨[ruleB], false, false, ⟨some 500, CacheState.valid [ruleB]⟩, [ruleA], false⟩ :=
  cached_within_day_no_fetch envC1w 500 [ruleB] (by decide) rfl rfl (by decide)
    (by decide) rfl (by decide)

/-- Concrete environment for the C4 counterexample: never synced, probe ok,
fetch parses two rules, but the write of the fetched rules to the bundled
file fails. -/
def envC4 : LoadEnv :=
  ⟨[ruleA], .ok, .success [ruleA, ruleB], false, ⟨none, .absent⟩, 7000⟩

/-- C4 counterexample: the remote fetch and parse succeed (two rules), yet
because the save of the fetched rules to the bundled file fails (line 221,
re-thrown at line 225), nothing is persisted and `_loadRules` returns the
local one-rule set with `needsSync = true` — not the fetched set. -/
theorem sync_save_failure_cex :
    envC4.fetch = FetchResult.success [ruleA, ruleB] ∧
      computeNeedsSync envC4.config.lastSync envC4.now = true ∧
      (loadRules envC4).rules = [ruleA] ∧
      (loadRules envC4).rules ≠ [ruleA, ruleB] ∧
      (loadRules envC4).needsSync = true ∧ (loadRules envC4).isOffline = true ∧
      (loadRules envC4).config = ⟨none, CacheState.absent⟩ := by
  refine ⟨rfl, rfl, rfl, by decide, rfl, rfl, rfl⟩

/-- C4 amended: when the endpoint is reachable, sync is needed, the remote
fetch and parse succeed, and the save of the fetched rules to the local
bundled rules file also succeeds, `_loadRules` persists the fetched rules
as the new cache and `lastSyncTimestamp = now`, writes them to the bundled
file, and returns the fetched set with `needsSync = false` and
`isOffline = false`. -/
theorem sync_success_persists (env : LoadEnv) (rs : List Rule)
    (hlocal : env.localRules ≠ [])
    (hprobe : env.probe = ProbeResult.ok)
    (hns : computeNeedsSync env.config.lastSync env.now = true)
    (hf : env.fetch = FetchResult.success rs)
    (hw : env.writeOk = true) :
    loadRules env =
      ⟨rs, false, false, ⟨some env.now, CacheState.valid rs⟩, rs, true⟩ := by
  have hlen : ¬(env.localRules.length = 0) := by
    simpa [List.length_eq_zero] using hlocal
  simp [loadRules, hlen, hprobe, probeOffline, hns, syncRules, hf, hw]

/-- Concrete environment for the C4 witness, matching the spec example:
never synced, one local rule, reachable remote returning two rules. -/
def envC4w : LoadEnv :=
  ⟨[ruleA], .ok, .success [ruleA, ruleB], true, ⟨none, .absent⟩, 7000⟩

/-- Witness for the amended C4: the spec example instance — the result is
the two-rule set and the persisted cache now holds the two rules. -/
theorem sync_success_persists_witness :
    loadRules envC4w =
      ⟨[ruleA, ruleB], false, false,
        ⟨some 7000, CacheState.valid [ruleA, ruleB]⟩, [ruleA, ruleB], true⟩ :=
  sync_success_persists envC4w [ruleA, ruleB] (by decide) rfl rfl rfl rfl

/-- C5: when sync is needed and the fetch attempt fails with a network
error, non-success status, or parse error, `_loadRules` returns the local
bundled rules with `needsSync = true` and `isOffline = true`, and neither
persisted configuration key nor the bundled rules file is mutated. -/
theorem sync_failure_no_mutation (env : LoadEnv)
    (hns : computeNeedsSync env.config.lastSync env.now = true)
    (hf : env.fetch.failed = true) :
    (loadRules env).rules = env.localRules ∧ (loadRules env).needsSync = true ∧
      (loadRules env).isOffline = true ∧ (loadRules env).config = env.config ∧
      (loadRules env).localFile = env.localRules := by
  unfold loadRules
  split
  · next h0 =>
    have h1 : env.localRules = [] := List.length_eq_zero.mp h0
    exact ⟨h1.symm, rfl, rfl, rfl, rfl⟩
  split
  · exact ⟨rfl, rfl, rfl, rfl, rfl⟩
  split
  · next s hs =>
    obtain ⟨hfetch, _, _, _⟩ := syncRules_ok_elim hs
    rw [hfetch] at hf
    exact absurd hf (by simp [FetchResult.failed])
  · exact ⟨rfl, rfl, rfl, rfl, rfl⟩

/-- Concrete environment for the C5 witness: stale timestamp, fetch
answers with a non-success status. -/
def envC5 : LoadEnv :=
  ⟨[ruleA], .ok, .badStatus, true, ⟨some 1, .valid [ruleB]⟩, 200000000⟩

/-- Witness for C5 at a concrete failing fetch. -/
theorem sync_failure_no_mutation_witness :
    (loadRules envC5).rules = [ruleA] ∧ (loadRules envC5).needsSync = true ∧
      (loadRules envC5).isOffline = true ∧
      (loadRules envC5).config = ⟨some 1, CacheState.valid [ruleB]⟩ ∧
      (loadRules envC5).localFile = [ruleA] :=
  sync_failure_no_mutation envC5 (by decide) rfl

/-- Concrete environment for C7: reachable probe would be irrelevant; the
rule-list fetch fails with a network error. -/
def envC7 : LoadEnv := ⟨[ruleA], .ok, .networkError, true, ⟨none, .absent⟩, 0⟩

/-- Concrete `_setRule` environment used alongside `envC7`. -/
def senvC7 : SetRuleEnv := ⟨true, none, .yes, true⟩

/-- C7 counterexample: a network error during a user-triggered `syncRules`
message is re-thrown by `_syncRules` (line 243) and the message dispatcher
(lines 67-83) has no catch, so the error escapes the action's boundary
instead of being caught. -/
theorem syncMsg_error_escapes_cex :
    onDidReceiveMessage WebviewMsg.syncRules envC7 senvC7 =
      Except.error SyncError.fetchNetworkError := rfl

/-- C7 amended: for the `getRules` and `setRule` messages and the open
command, every error raised inside the action is caught at the boundary of
that action and surfaced as a notification, so no error escapes those
handlers: the empty-local-rules error and a failing load (malformed cached
JSON reaching the outer catch) surface error notifications during
`getRules` and the open command, and the no-workspace and write-failure
errors surface error notifications during `setRule` (a fetch failure
during the load is recovered internally at lines 168-171 by falling back
to local rules before it can reach the boundary).  But an error thrown by
the sync routine during a user-triggered `syncRules` message is not
caught: it escapes the message handler, with no notification emitted. -/
theorem handler_errors_caught_and_surfaced (lenv : LoadEnv) (senv : SetRuleEnv) (r : Rule) :
    (handled (onDidReceiveMessage WebviewMsg.getRules lenv senv) = true ∧
      handled (onDidReceiveMessage (WebviewMsg.setRule r) lenv senv) = true ∧
      (openViewer lenv).1 = Except.ok (loadRules lenv)) ∧
    (lenv.localRules.length = 0 →
      Notice.errorNoLocalRules ∈ messageNotices WebviewMsg.getRules lenv senv ∧
        Notice.errorNoLocalRules ∈ (openViewer lenv).2) ∧
    (lenv.localRules.length ≠ 0 → probeOffline lenv.probe = false →
      computeNeedsSync lenv.config.lastSync lenv.now = false →
      lenv.config.cache = CacheState.malformed →
      Notice.errorLoadFailed ∈ messageNotices WebviewMsg.getRules lenv senv ∧
        Notice.errorLoadFailed ∈ (openViewer lenv).2) ∧
    (senv.hasWorkspace = false →
      Notice.errorNoWorkspace ∈ messageNotices (WebviewMsg.setRule r) lenv senv) ∧
    (senv.hasWorkspace = true → senv.writeOk = false →
      senv.existingFile = none ∨ senv.choice = PromptChoice.yes →
      Notice.errorWriteFailed ∈ messageNotices (WebviewMsg.setRule r) lenv senv) ∧
    (lenv.fetch.failed = true ∨ lenv.writeOk = false →
      handled (onDidReceiveMessage WebviewMsg.syncRules lenv senv) = false ∧
        messageNotices WebviewMsg.syncRules lenv senv = []) := by
  refine ⟨⟨rfl, rfl, rfl⟩, ?_, ?_, ?_, ?_, ?_⟩
  · intro h0
    simp [messageNotices, loadNotices, openViewer, h0]
  · intro h0 h1 h2 h3
    simp [messageNotices, loadNotices, openViewer, h0, h1, h2, h3]
  · intro hws
    simp [messageNotices, setRuleNotices, setRule, hws]
  · intro hws hwo hor
    rcases hor with he | hc
    · simp [messageNotices, setRuleNotices, setRule, setRuleWrite, hws, hwo, he]
    · cases he : senv.existingFile <;>
        simp [messageNotices, setRuleNotices, setRule, setRuleWrite, hws, hwo, hc, he]
  · intro h
    unfold onDidReceiveMessage messageNotices syncNotices
    cases hs : syncRules lenv with
    | error e => exact ⟨rfl, rfl⟩
    | ok s =>
      obtain ⟨hf, hw, _, _⟩ := syncRules_ok_elim hs
      rcases h with h | h
      · rw [hf] at h
        exact absurd h (by simp [FetchResult.failed])
      · rw [hw] at h
        exact Bool.noConfusion h

/-- Concrete environment for the C7 witness's load-failure clause: online,
no sync needed (nonzero recent timestamp), but the cached JSON is
malformed, so the load error is caught and surfaced as a notification. -/
def envC7n : LoadEnv := ⟨[ruleA], .ok, .success [], true, ⟨some 1, .malformed⟩, 2⟩

/-- Concrete `_setRule` environment with no open workspace. -/
def senvC7w : SetRuleEnv := ⟨false, none, .yes, true⟩

/-- Witness for the amended C7: the three protected actions complete with
errors surfaced as notifications (a malformed-cache load failure during
`getRules`, the no-workspace error during `setRule`), while the
`syncRules` message lets the failing sync escape with no notification. -/
theorem handler_errors_caught_and_surfaced_witness :
    handled (onDidReceiveMessage WebviewMsg.getRules envC7 senvC7) = true ∧
      handled (onDidReceiveMessage (WebviewMsg.setRule ruleA) envC7 senvC7) = true ∧
      (openViewer envC7).1 = Except.ok (loadRules envC7) ∧
      Notice.errorLoadFailed ∈ messageNotices WebviewMsg.getRules envC7n senvC7 ∧
      Notice.errorNoWorkspace ∈ messageNotices (WebviewMsg.setRule ruleA) envC7 senvC7w ∧
      handled (onDidReceiveMessage WebviewMsg.syncRules envC7 senvC7) = false ∧
      messageNotices WebviewMsg.syncRules envC7 senvC7 = [] := by
  obtain ⟨⟨h1, h2, h3⟩, _, _, _, _, h6⟩ :=
    handler_errors_caught_and_surfaced envC7 senvC7 ruleA
  obtain ⟨h7, h8⟩ := h6 (Or.inl rfl)
  obtain ⟨_, _, hm, _, _, _⟩ :=
    handler_errors_caught_and_surfaced envC7n senvC7 ruleA
  obtain ⟨h9, _⟩ := hm (by decide) rfl (by decide) rfl
  obtain ⟨_, _, _, hw, _, _⟩ :=
    handler_errors_caught_and_surfaced envC7 senvC7w ruleA
  have h10 := hw rfl
  exact ⟨h1, h2, h3, h9, h10, h7, h8⟩

/-- C8: applying a rule in a workspace with no existing `.cursorrules`
file never prompts, and the write call carries exactly the rule's
`content` field (no header or footer); when the write succeeds the file
afterwards contains exactly that content. -/
theorem setRule_fresh_write (rule : Rule) (env : SetRuleEnv)
    (hw : env.hasWorkspace = true) (he : env.existingFile = none) :
    (setRule rule env).prompted = false ∧
      (setRule rule env).writeAttempt = some rule.content ∧
      (env.writeOk = true → (setRule rule env).file = some rule.content) := by
  cases hwo : env.writeOk <;> simp [setRule, setRuleWrite, hw, he, hwo]

/-- Concrete `_setRule` environment for the C8 witness: workspace open, no
existing file. -/
def senvC8 : SetRuleEnv := ⟨true, none, .dismissed, true⟩

/-- Witness for C8 at a concrete environment. -/
theorem setRule_fresh_write_witness :
    (setRule ruleA senvC8).prompted = false ∧
      (setRule ruleA senvC8).writeAttempt = some "content-a" ∧
      (setRule ruleA senvC8).file = some "content-a" := by
  obtain ⟨h1, h2, h3⟩ := setRule_fresh_write ruleA senvC8 rfl rfl
  exact ⟨h1, h2, h3 rfl⟩

/-- C9: when `.cursorrules` already exists, `_setRule` always prompts; a
write happens only after a Yes answer, and any other answer performs no
write, leaves the prior contents unchanged, and emits no error (a silent
no-op). -/
theorem setRule_overwrite_confirm (rule : Rule) (env : SetRuleEnv) (c : String)
    (hw : env.hasWorkspace = true) (he : env.existingFile = some c) :
    (setRule rule env).prompted = true ∧
      ((setRule rule env).writeAttempt ≠ none → env.choice = PromptChoice.yes) ∧
      (env.choice ≠ PromptChoice.yes →
        (setRule rule env).writeAttempt = none ∧ (setRule rule env).file = some c ∧
          (setRule rule env).notice = SetRuleNotice.silent) := by
  cases hc : env.choice <;> cases hwo : env.writeOk <;>
    simp [setRule, setRuleWrite, hw, he, hc, hwo]

/-- Concrete `_setRule` environment for the C9 witness: existing file with
prior contents, user answers No. -/
def senvC9 : SetRuleEnv := ⟨true, some "keep-me", .no, true⟩

/-- Witness for C9: declining the overwrite prompt performs no write,
preserves the prior contents, and is silent. -/
theorem setRule_overwrite_confirm_witness :
    (setRule ruleA senvC9).prompted = true ∧
      (setRule ruleA senvC9).writeAttempt = none ∧
      (setRule ruleA senvC9).file = some "keep-me" ∧
      (setRule ruleA senvC9).notice = SetRuleNotice.silent := by
  obtain ⟨h1, _, h3⟩ := setRule_overwrite_confirm ruleA senvC9 "keep-me" rfl rfl
  obtain ⟨h4, h5, h6⟩ := h3 (by decide)
  exact ⟨h1, h4, h5, h6⟩

end CursorRules
